import Mathlib

/-!
Shallow embedding of the repohack threat-detection pipeline:
the code-execution scanner (src/lib/scanners/code-execution.ts),
the AST-parser adapter and file traversal filter (src/lib/utils/ast-parser.ts),
the memory-bounded reader (src/lib/utils/file-type-utils.ts),
and the session aggregation (scanRepository server action).
External effects (the @typescript-eslint parser, process memory sampling,
the file stream) are passed in as explicit oracles.
-/

/-- JS `s.endsWith(suffix)`, computed on the underlying character list. -/
def strEndsWith (s suffix : String) : Bool :=
  suffix.data.isSuffixOf s.data

/-- JS `s.startsWith(pre)`, computed on the underlying character list. -/
def strStartsWith (s pre : String) : Bool :=
  pre.data.isPrefixOf s.data

/-- Whether `pat` occurs as a contiguous sublist. -/
def listContainsSub (pat : List Char) : List Char → Bool
  | [] => pat.isPrefixOf ([] : List Char)
  | c :: rest => pat.isPrefixOf (c :: rest) || listContainsSub pat rest

/-- JS `s.includes(pat)`, computed on the underlying character list. -/
def strContains (s pat : String) : Bool :=
  listContainsSub pat.data s.data

/-- Split on a single separator character (JS `s.split(c)`). -/
def splitOnCharGo (c : Char) : List Char → List Char → List String
  | [], acc => [⟨acc.reverse⟩]
  | d :: rest, acc =>
    if d == c then ⟨acc.reverse⟩ :: splitOnCharGo c rest []
    else splitOnCharGo c rest (d :: acc)

/-- JS `s.split(c)` for a one-character separator. -/
def splitOnChar (c : Char) (s : String) : List String :=
  splitOnCharGo c s.data []

/-- JS `s.trim()`: strip whitespace from both ends. -/
def strTrim (s : String) : String :=
  ⟨((s.data.dropWhile Char.isWhitespace).reverse.dropWhile Char.isWhitespace).reverse⟩

/-- JS `s.toLowerCase()` (ASCII). -/
def strToLower (s : String) : String :=
  ⟨s.data.map Char.toLower⟩

/-- Join a list of strings with a separator (JS `array.join(sep)`). -/
def strJoin (sep : String) : List String → String
  | [] => ""
  | [x] => x
  | x :: xs => x ++ sep ++ strJoin sep xs

/-- A sub-node referenced from a composite AST node (callee or argument).
The `name` field is `some` exactly when the underlying JS object has a
`name` property (identifiers); `valueIsString` records, for `Literal`
nodes, whether the `value` property is a string. -/
structure SubNode where
  type : String
  name : Option String := none
  valueIsString : Bool := false
deriving DecidableEq

/-- Simplified AST node as produced by `convertToASTNodes` in ast-parser.ts:
a type tag, an optional 1-based start line, and the type-specific payload
retained for `CallExpression` / `NewExpression` (callee, arguments) and
`ImportExpression` (source). -/
structure ASTNode where
  type : String
  startLine : Option Nat := none
  callee : Option SubNode := none
  arguments : Option (List SubNode) := none
  source : Option SubNode := none
deriving DecidableEq

/-- A repository file handed to the scanner (path, decoded content,
size, extension with leading dot, binary flag). -/
structure RepositoryFile where
  path : String
  content : String
  size : Nat
  extension : String
  isBinary : Bool
deriving DecidableEq

/-- A detected threat, with the open `details` map of code-execution.ts
flattened into the optional fields it actually uses
(nodeType, arguments count, isDynamic, riskLevel, injectionRisk,
functionName, argumentType, source). -/
structure ThreatResult where
  category : String
  subcategory : String
  severity : String
  description : String
  file : String
  line : Option Nat
  code : String
  nodeType : Option String := none
  arguments : Option Nat := none
  isDynamic : Option Bool := none
  riskLevel : Option String := none
  injectionRisk : Option String := none
  functionName : Option String := none
  argumentType : Option String := none
  sourceDetail : Option SubNode := none
deriving DecidableEq

/-- `getNodesByType` from ast-parser.ts: filter the flat node list by type tag. -/
def getNodesByType (nodes : List ASTNode) (nodeType : String) : List ASTNode :=
  nodes.filter (fun node => node.type == nodeType)

/-- `containsPatterns` from ast-parser.ts. -/
def containsPatterns (nodes : List ASTNode) (patterns : List String) : Bool :=
  patterns.any (fun pattern => nodes.any (fun node => node.type == pattern))

/-- `extractCodeContext` from code-execution.ts: the matched line plus
surrounding context, each line prefixed by its 1-based number. -/
def extractCodeContext (node : ASTNode) (file : RepositoryFile) : String :=
  match node.startLine with
  | some startLine =>
    let lines := splitOnChar '\n' file.content
    let contextStart := startLine - 3
    let contextEnd := min lines.length (startLine + 1)
    let contextLines := (lines.drop contextStart).take (contextEnd - contextStart)
    strJoin "\n"
      (contextLines.enum.map (fun p => toString (contextStart + p.1 + 1) ++ ": " ++ strTrim p.2))
  | none => "eval()"

/-- `isDynamicEvalCall` from code-execution.ts: looks only at the first
argument's node type; Identifier, TemplateLiteral, BinaryExpression and
CallExpression count as dynamic. -/
def isDynamicEvalCall (node : ASTNode) : Bool :=
  match node.arguments with
  | some (firstArg :: _) =>
    firstArg.type == "Identifier" || firstArg.type == "TemplateLiteral" ||
    firstArg.type == "BinaryExpression" || firstArg.type == "CallExpression"
  | _ => false

/-- `isDynamicFunctionConstructor` from code-execution.ts: any argument of a
dynamic node type (here including MemberExpression) makes the call dynamic. -/
def isDynamicFunctionConstructor (node : ASTNode) : Bool :=
  match node.arguments with
  | some args =>
    args.any (fun arg =>
      arg.type == "Identifier" || arg.type == "TemplateLiteral" ||
      arg.type == "BinaryExpression" || arg.type == "CallExpression" ||
      arg.type == "MemberExpression")
  | none => false

/-- `assessCodeInjectionRisk` from code-execution.ts. -/
def assessCodeInjectionRisk (node : ASTNode) : String :=
  match node.arguments with
  | some (firstArg :: _) =>
    if firstArg.type == "Identifier" then "variable_based_code"
    else if firstArg.type == "TemplateLiteral" then "template_literal_with_expressions"
    else if firstArg.type == "BinaryExpression" then "string_concatenation"
    else if firstArg.type == "CallExpression" then "function_call_result"
    else if firstArg.type == "MemberExpression" then "object_property_access"
    else if firstArg.type == "Literal" then "static_string"
    else "unknown_risk"
  | _ => "unknown_risk"

/-- `(node.arguments as unknown[])?.length || 0`. -/
def argCount (node : ASTNode) : Nat :=
  match node.arguments with
  | some args => args.length
  | none => 0

/-- The threat pushed by `detectEvalUsage` for one matching eval call. -/
def mkEvalThreat (node : ASTNode) (file : RepositoryFile) : ThreatResult :=
  let isDyn := isDynamicEvalCall node
  { category := "code_execution", subcategory := "eval_usage", severity := "CRITICAL",
    description := if isDyn then
        "Dynamic eval() function usage detected - high risk code injection vulnerability"
      else
        "eval() function usage detected - potential code injection vulnerability",
    file := file.path, line := node.startLine, code := extractCodeContext node file,
    nodeType := some node.type, arguments := some (argCount node),
    isDynamic := some isDyn, riskLevel := some (if isDyn then "high" else "medium") }

/-- Loop body of `detectEvalUsage`: the threats pushed for one node. -/
def evalHits (file : RepositoryFile) (node : ASTNode) : List ThreatResult :=
  match node.callee with
  | some callee =>
    match callee.name with
    | some calleeName => if calleeName == "eval" then [mkEvalThreat node file] else []
    | none => []
  | none => []

/-- The `for` loop of `detectEvalUsage` over the filtered call expressions. -/
def detectEvalUsageGo (file : RepositoryFile) : List ASTNode → List ThreatResult
  | [] => []
  | node :: rest => evalHits file node ++ detectEvalUsageGo file rest

/-- `detectEvalUsage` from code-execution.ts. -/
def detectEvalUsage (nodes : List ASTNode) (file : RepositoryFile) : List ThreatResult :=
  detectEvalUsageGo file (getNodesByType nodes "CallExpression")

/-- The threat pushed by `detectDynamicImports` for one ImportExpression. -/
def mkImportThreat (node : ASTNode) (file : RepositoryFile) : ThreatResult :=
  { category := "code_execution", subcategory := "dynamic_import", severity := "WARNING",
    description := "Dynamic import() detected - potential code loading vulnerability",
    file := file.path, line := node.startLine, code := "import()",
    nodeType := some node.type, sourceDetail := node.source }

/-- The `for` loop of `detectDynamicImports`. -/
def detectDynamicImportsGo (file : RepositoryFile) : List ASTNode → List ThreatResult
  | [] => []
  | node :: rest => mkImportThreat node file :: detectDynamicImportsGo file rest

/-- `detectDynamicImports` from code-execution.ts. -/
def detectDynamicImports (nodes : List ASTNode) (file : RepositoryFile) : List ThreatResult :=
  detectDynamicImportsGo file (getNodesByType nodes "ImportExpression")

/-- The threat pushed by `detectFunctionConstructor` for one matching node. -/
def mkFunctionConstructorThreat (node : ASTNode) (file : RepositoryFile) : ThreatResult :=
  let isDyn := isDynamicFunctionConstructor node
  { category := "code_execution", subcategory := "function_constructor", severity := "WARNING",
    description := if isDyn then
        "Dynamic Function constructor usage detected - potential code injection vulnerability"
      else
        "Function constructor usage detected - potential code injection vulnerability",
    file := file.path, line := node.startLine, code := extractCodeContext node file,
    nodeType := some node.type, arguments := some (argCount node),
    isDynamic := some isDyn, injectionRisk := some (assessCodeInjectionRisk node),
    riskLevel := some (if isDyn then "high" else "medium") }

/-- Loop body of `detectFunctionConstructor`. -/
def functionConstructorHits (file : RepositoryFile) (node : ASTNode) : List ThreatResult :=
  match node.callee with
  | some callee =>
    match callee.name with
    | some calleeName =>
      if calleeName == "Function" then [mkFunctionConstructorThreat node file] else []
    | none => []
  | none => []

/-- The `for` loop of `detectFunctionConstructor` over the NewExpression nodes. -/
def detectFunctionConstructorGo (file : RepositoryFile) : List ASTNode → List ThreatResult
  | [] => []
  | node :: rest => functionConstructorHits file node ++ detectFunctionConstructorGo file rest

/-- `detectFunctionConstructor` from code-execution.ts. -/
def detectFunctionConstructor (nodes : List ASTNode) (file : RepositoryFile) : List ThreatResult :=
  detectFunctionConstructorGo file (getNodesByType nodes "NewExpression")

/-- The threat pushed by `detectTimerThreats` for one matching node. -/
def mkTimerThreat (calleeName : String) (node : ASTNode) (file : RepositoryFile) : ThreatResult :=
  { category := "code_execution", subcategory := "timer_code_injection", severity := "WARNING",
    description := "String argument in " ++ calleeName ++ " detected - potential code injection vulnerability",
    file := file.path, line := node.startLine, code := calleeName ++ "()",
    nodeType := some node.type, functionName := some calleeName,
    argumentType := some "string" }

/-- Loop body of `detectTimerThreats`: setTimeout/setInterval report only
when the first argument is a string Literal. -/
def timerHits (file : RepositoryFile) (node : ASTNode) : List ThreatResult :=
  match node.callee with
  | some callee =>
    match callee.name with
    | some calleeName =>
      if calleeName == "setTimeout" || calleeName == "setInterval" then
        match node.arguments with
        | some (firstArg :: _) =>
          if firstArg.type == "Literal" && firstArg.valueIsString then
            [mkTimerThreat calleeName node file]
          else []
        | _ => []
      else []
    | none => []
  | none => []

/-- The `for` loop of `detectTimerThreats`. -/
def detectTimerThreatsGo (file : RepositoryFile) : List ASTNode → List ThreatResult
  | [] => []
  | node :: rest => timerHits file node ++ detectTimerThreatsGo file rest

/-- `detectTimerThreats` from code-execution.ts. -/
def detectTimerThreats (nodes : List ASTNode) (file : RepositoryFile) : List ThreatResult :=
  detectTimerThreatsGo file (getNodesByType nodes "CallExpression")

/-- The threat pushed by `detectShellExecution` for one matching node. -/
def mkShellThreat (calleeName : String) (node : ASTNode) (file : RepositoryFile) : ThreatResult :=
  { category := "code_execution", subcategory := "shell_execution", severity := "CRITICAL",
    description := "Shell execution function " ++ calleeName ++ " detected - potential command injection vulnerability",
    file := file.path, line := node.startLine, code := calleeName ++ "()",
    nodeType := some node.type, functionName := some calleeName,
    arguments := some (argCount node) }

/-- Loop body of `detectShellExecution`. -/
def shellHits (file : RepositoryFile) (node : ASTNode) : List ThreatResult :=
  match node.callee with
  | some callee =>
    match callee.name with
    | some calleeName =>
      if calleeName == "exec" || calleeName == "spawn" ||
         calleeName == "execSync" || calleeName == "spawnSync" then
        [mkShellThreat calleeName node file]
      else []
    | none => []
  | none => []

/-- The `for` loop of `detectShellExecution`. -/
def detectShellExecutionGo (file : RepositoryFile) : List ASTNode → List ThreatResult
  | [] => []
  | node :: rest => shellHits file node ++ detectShellExecutionGo file rest

/-- `detectShellExecution` from code-execution.ts. -/
def detectShellExecution (nodes : List ASTNode) (file : RepositoryFile) : List ThreatResult :=
  detectShellExecutionGo file (getNodesByType nodes "CallExpression")

/-- `analyzeASTNodes` from code-execution.ts: the five detectors run in a
fixed order, their results concatenated. -/
def analyzeASTNodes (nodes : List ASTNode) (file : RepositoryFile) : List ThreatResult :=
  detectEvalUsage nodes file ++ detectDynamicImports nodes file ++
  detectFunctionConstructor nodes file ++ detectTimerThreats nodes file ++
  detectShellExecution nodes file

/-- Result of `parseAST` in ast-parser.ts. On success the node sequence is
present and no error; on failure no nodes and a descriptive error. -/
structure ParseResult where
  success : Bool
  nodes : Option (List ASTNode) := none
  error : Option String := none
  filePath : String
deriving DecidableEq

/-- The external @typescript-eslint parse-and-flatten step, as an oracle:
given the content it either yields the flattened node list or throws
(modelled as `Except.error` with the exception message). -/
abbrev ParserOracle := String → Except String (List ASTNode)

/-- `parseAST` from ast-parser.ts: validates content, then the extension,
then invokes the external parser inside a try/catch that converts any
thrown error into a typed failure. -/
def parseAST (parser : ParserOracle) (content : String) (filePath : String) : ParseResult :=
  if content == "" then
    { success := false, error := some "Invalid content: must be a non-empty string",
      filePath := filePath }
  else
    let isTypeScript := strEndsWith filePath ".ts" || strEndsWith filePath ".tsx"
    let isJavaScript := strEndsWith filePath ".js" || strEndsWith filePath ".jsx"
    if !isTypeScript && !isJavaScript then
      { success := false, error := some ("Unsupported file type: " ++ filePath),
        filePath := filePath }
    else
      match parser content with
      | .ok nodes => { success := true, nodes := some nodes, filePath := filePath }
      | .error e => { success := false, error := some e, filePath := filePath }

/-- Extensions accepted by `CodeExecutionScanner.scan`. -/
def supportedExtensions : List String := [".ts", ".tsx", ".js", ".jsx"]

/-- One iteration of the `scan` loop of CodeExecutionScanner: the threats
found in this file and the console warnings emitted for it. Non-code and
binary files are skipped; a parse failure is logged via `console.warn`
(second component) and the file is skipped. -/
def scanFileStep (parser : ParserOracle) (file : RepositoryFile) :
    List ThreatResult × List String :=
  if !(supportedExtensions.contains file.extension) || file.isBinary then ([], [])
  else
    let parseResult := parseAST parser file.content file.path
    if !parseResult.success then
      ([], ["Failed to parse " ++ file.path ++ ": " ++ parseResult.error.getD "undefined"])
    else
      match parseResult.nodes with
      | none => ([], [])
      | some nodes => (analyzeASTNodes nodes file, [])

/-- `CodeExecutionScanner.scan` over a file list: accumulated threats and
accumulated console-warning log. -/
def scanCES (parser : ParserOracle) : List RepositoryFile → List ThreatResult × List String
  | [] => ([], [])
  | file :: rest =>
    let step := scanFileStep parser file
    let restResult := scanCES parser rest
    (step.1 ++ restResult.1, step.2 ++ restResult.2)

/-- The session result shape returned by `scanRepository` (success path),
restricted to the fields the core computes. -/
structure ScanResult where
  scanCompleted : Bool
  errors : List String
  threats : List ThreatResult
  overallStatus : String
  scannedFiles : Nat
deriving DecidableEq

/-- The success path of `scanRepository` after the repository files have
been read into memory: run the code-execution scanner and aggregate.
The local `errors` array is created empty and never pushed to on this
path; the overall status is `UNSAFE` exactly when any threat exists. -/
def scanRepositoryCore (parser : ParserOracle) (files : List RepositoryFile) : ScanResult :=
  let threats := (scanCES parser files).1
  { scanCompleted := true, errors := [],
    threats := threats,
    overallStatus := if threats.length > 0 then "UNSAFE" else "SAFE",
    scannedFiles := files.length }

/-- File metadata produced during traversal (file-utils.ts). -/
structure FileMetadata where
  path : String
  relativePath : String
  size : Nat
  isDirectory : Bool
  isSymbolicLink : Bool
  isFile : Bool
deriving DecidableEq

/-- Traversal options with their documented defaults. `fileExtensions` and
`maxFileSize` are `Option` because the JS code tests them for truthiness
before use. -/
structure TraversalOptions where
  maxDepth : Nat := 10
  includeHidden : Bool := false
  fileExtensions : Option (List String) := none
  maxFileSize : Option Nat := none
  followSymlinks : Bool := false

/-- `shouldIncludeFile` from the traversal module: the hidden-file branch
fires only when the relative path contains the substring "/." and some
slash-separated segment starts with a dot; then the size cap and the
extension filter (both skipped when the option is unset or zero). -/
def shouldIncludeFile (file : FileMetadata) (options : TraversalOptions) : Bool :=
  if !options.includeHidden && strContains file.relativePath "/." &&
     (splitOnChar '/' file.relativePath).any (fun part => strStartsWith part ".") then
    false
  else if (match options.maxFileSize with
           | some m => m != 0 && file.size > m
           | none => false) then
    false
  else
    match options.fileExtensions with
    | some exts =>
      if exts.length > 0 then
        let ext := strToLower ((splitOnChar '.' file.relativePath).getLastD "")
        if ext == "" || !(exts.contains ext) then false else true
      else true
    | none => true

/-- `streamFileContent` from file-type-utils.ts, with the stream's data
events and the process-memory sample observed at each event passed as an
explicit list of (chunk, heapUsed) pairs. Before a chunk is accumulated
the sampled usage is compared against the ceiling; crossing it destroys
the stream and rejects, so no content is returned. -/
def streamFileContentGo (maxMemoryUsage : Nat) :
    List (String × Nat) → String → Nat → Except String (String × Nat)
  | [], content, chunkCount => .ok (content, chunkCount)
  | (chunk, memUsed) :: rest, content, chunkCount =>
    if memUsed > maxMemoryUsage then
      .error ("Memory usage limit exceeded: " ++ toString memUsed ++ " bytes")
    else
      streamFileContentGo maxMemoryUsage rest (content ++ chunk) (chunkCount + 1)

/-- Entry point of the streaming read: empty accumulator, zero chunks. -/
def streamFileContent (maxMemoryUsage : Nat) (chunks : List (String × Nat)) :
    Except String (String × Nat) :=
  streamFileContentGo maxMemoryUsage chunks "" 0

/-- `readFileWithMemoryMonitoring` from file-type-utils.ts: sample memory
before any read and fail if already over the ceiling; stream files larger
than 10MiB; read smaller files in one call (one chunk). The initial
memory sample, the whole-file content and the stream events are oracles
standing for `process.memoryUsage()` and the filesystem. The result pairs
the content with the chunk count. -/
def readFileWithMemoryMonitoring (maxMemoryUsage fileSize initialMemoryUsed : Nat)
    (wholeContent : String) (chunks : List (String × Nat)) :
    Except String (String × Nat) :=
  if initialMemoryUsed > maxMemoryUsage then
    .error ("Initial memory usage too high: " ++ toString initialMemoryUsed ++ " bytes")
  else if fileSize > 10 * 1024 * 1024 then
    streamFileContent maxMemoryUsage chunks
  else
    .ok (wholeContent, 1)

/-- Fixture: an ImportExpression node on line 1. -/
def importNode : ASTNode :=
  { type := "ImportExpression", startLine := some 1 }

/-- Fixture: `eval(x)` on line 2 with an identifier argument. -/
def evalNodeLine2 : ASTNode :=
  { type := "CallExpression", startLine := some 2,
    callee := some { type := "Identifier", name := some "eval" },
    arguments := some [{ type := "Identifier", name := some "x" }] }

/-- Fixture: an eval call whose first argument is a member expression. -/
def evalMemberArgNode : ASTNode :=
  { type := "CallExpression", startLine := some 1,
    callee := some { type := "Identifier", name := some "eval" },
    arguments := some [{ type := "MemberExpression" }] }

/-- Fixture: a two-line TypeScript file. -/
def sampleFile : RepositoryFile :=
  { path := "a.ts", content := "import('m')\neval(x)", size := 20,
    extension := ".ts", isBinary := false }

/-- Fixture: a parser oracle that yields one dynamic-import node. -/
def importOnlyParser : ParserOracle := fun _ => .ok [importNode]

/-- Fixture: a parser oracle that always throws. -/
def failParser : ParserOracle := fun _ => .error "Unexpected token"

/-- Fixture: a malformed TypeScript file. -/
def badFile : RepositoryFile :=
  { path := "malformed.ts", content := "function test( \x7b", size := 16,
    extension := ".ts", isBinary := false }

/-- Fixture: a hidden file directly at the scan root. -/
def hiddenRootFile : FileMetadata :=
  { path := "/repo/.env", relativePath := ".env", size := 10,
    isDirectory := false, isSymbolicLink := false, isFile := true }

/-- Fixture: a hidden file nested below the scan root. -/
def hiddenNestedFile : FileMetadata :=
  { path := "/repo/src/.secret", relativePath := "src/.secret", size := 10,
    isDirectory := false, isSymbolicLink := false, isFile := true }

/-- Fixture: a shell-execution call site, `exec(cmd)` on line 3. -/
def execNode : ASTNode :=
  { type := "CallExpression", startLine := some 3,
    callee := some { type := "Identifier", name := some "exec" },
    arguments := some [{ type := "Identifier", name := some "cmd" }] }

/-- Fixture: a call through a member expression, `cp.exec(cmd)`. -/
def memberCalleeNode : ASTNode :=
  { type := "CallExpression", startLine := some 4,
    callee := some { type := "MemberExpression" },
    arguments := some [{ type := "Identifier", name := some "cmd" }] }

/-! ### Structural lemmas about the detector loops -/

theorem detectEvalUsageGo_eq_flatMap (file : RepositoryFile) (l : List ASTNode) :
    detectEvalUsageGo file l = l.flatMap (evalHits file) := by
  induction l with
  | nil => rfl
  | cons n rest ih => simp [detectEvalUsageGo, ih]

theorem detectDynamicImportsGo_eq_map (file : RepositoryFile) (l : List ASTNode) :
    detectDynamicImportsGo file l = l.map (fun n => mkImportThreat n file) := by
  induction l with
  | nil => rfl
  | cons n rest ih => simp [detectDynamicImportsGo, ih]

theorem detectFunctionConstructorGo_eq_flatMap (file : RepositoryFile) (l : List ASTNode) :
    detectFunctionConstructorGo file l = l.flatMap (functionConstructorHits file) := by
  induction l with
  | nil => rfl
  | cons n rest ih => simp [detectFunctionConstructorGo, ih]

theorem detectTimerThreatsGo_eq_flatMap (file : RepositoryFile) (l : List ASTNode) :
    detectTimerThreatsGo file l = l.flatMap (timerHits file) := by
  induction l with
  | nil => rfl
  | cons n rest ih => simp [detectTimerThreatsGo, ih]

theorem detectShellExecutionGo_eq_flatMap (file : RepositoryFile) (l : List ASTNode) :
    detectShellExecutionGo file l = l.flatMap (shellHits file) := by
  induction l with
  | nil => rfl
  | cons n rest ih => simp [detectShellExecutionGo, ih]

/-! ### Claim theorems -/

/-- Claim C1, counterexample: a completed session whose single finding has
warning severity gets overall status "UNSAFE", not "WARNING" as the claim
requires. -/
theorem C1_counterexample :
    (scanRepositoryCore importOnlyParser [sampleFile]).scanCompleted = true ∧
    (scanRepositoryCore importOnlyParser [sampleFile]).threats.length = 1 ∧
    ((scanRepositoryCore importOnlyParser [sampleFile]).threats.all
      (fun t => t.severity == "WARNING")) = true ∧
    (scanRepositoryCore importOnlyParser [sampleFile]).overallStatus = "UNSAFE" :=
  ⟨by decide, by decide, by decide, by decide⟩

/-- Claim C1, amended: for every completed scan session the overall status
is "UNSAFE" exactly when at least one finding of any severity exists, and
"SAFE" otherwise; severity plays no role and "WARNING" is never produced. -/
theorem C1_overall_status (parser : ParserOracle) (files : List RepositoryFile) :
    (scanRepositoryCore parser files).overallStatus =
      (if (scanRepositoryCore parser files).threats.isEmpty then "SAFE" else "UNSAFE") := by
  show (if (scanCES parser files).1.length > 0 then "UNSAFE" else "SAFE") = _
  cases h : (scanCES parser files).1 <;>
    simp [scanRepositoryCore, h]

/-- Claim C2, counterexample: a file whose parse fails contributes zero
findings, but the session error list stays empty — the failure is recorded
only in the console-warning log, contradicting the claimed session-level
error entry. -/
theorem C2_counterexample :
    (parseAST failParser badFile.content badFile.path).success = false ∧
    (scanRepositoryCore failParser [badFile]).threats = [] ∧
    (scanRepositoryCore failParser [badFile]).errors = [] ∧
    (scanCES failParser [badFile]).2 =
      ["Failed to parse malformed.ts: Unexpected token"] :=
  ⟨by decide, by decide, rfl, by decide⟩

/-- Claim C2, amended: a parse-failing file contributes zero findings and
exactly one console-warning log entry, and scanning continues with the
remaining files; the session's error list receives no entry for it (on the
success path it is always empty). -/
theorem C2_parse_failure_logged_only (parser : ParserOracle) (file : RepositoryFile)
    (rest : List RepositoryFile)
    (hext : supportedExtensions.contains file.extension = true)
    (hbin : file.isBinary = false)
    (hfail : (parseAST parser file.content file.path).success = false) :
    (scanCES parser (file :: rest)).1 = (scanCES parser rest).1 ∧
    (scanCES parser (file :: rest)).2 =
      ("Failed to parse " ++ file.path ++ ": " ++
        (parseAST parser file.content file.path).error.getD "undefined") ::
        (scanCES parser rest).2 ∧
    ∀ fs : List RepositoryFile, (scanRepositoryCore parser fs).errors = [] := by
  have hmem : file.extension ∈ supportedExtensions := by simpa using hext
  refine ⟨?_, ?_, fun fs => rfl⟩ <;>
    simp [scanCES, scanFileStep, hmem, hbin, hfail]

/-- Witness for C2_parse_failure_logged_only at the malformed fixture. -/
theorem C2_parse_failure_logged_only_witness :
    (scanCES failParser [badFile]).1 = (scanCES failParser []).1 ∧
    (scanCES failParser [badFile]).2 =
      ("Failed to parse " ++ badFile.path ++ ": " ++
        (parseAST failParser badFile.content badFile.path).error.getD "undefined") ::
        (scanCES failParser []).2 ∧
    ∀ fs : List RepositoryFile, (scanRepositoryCore failParser fs).errors = [] :=
  C2_parse_failure_logged_only failParser badFile [] (by decide) (by decide) (by decide)

/-- Claim C9: the per-file scan is a deterministic function of its AST
input — scanning equal node sequences of equal files yields identical
finding lists. -/
theorem C9_deterministic (n₁ n₂ : List ASTNode) (f₁ f₂ : RepositoryFile)
    (hn : n₁ = n₂) (hf : f₁ = f₂) :
    analyzeASTNodes n₁ f₁ = analyzeASTNodes n₂ f₂ := by
  rw [hn, hf]

/-- Witness for C9_deterministic at a concrete node list and file. -/
theorem C9_deterministic_witness :
    analyzeASTNodes [evalNodeLine2] sampleFile = analyzeASTNodes [evalNodeLine2] sampleFile :=
  C9_deterministic [evalNodeLine2] [evalNodeLine2] sampleFile sampleFile rfl rfl

/-- Claim C3, counterexample: an eval call whose first argument is a
member expression is classified static — isDynamic=false and
riskLevel="medium" — while the claim requires isDynamic=true and
riskLevel="high" for member-expression arguments. -/
theorem C3_counterexample :
    evalMemberArgNode.arguments = some [{ type := "MemberExpression" }] ∧
    (detectEvalUsage [evalMemberArgNode] sampleFile).map
        (fun t => (t.isDynamic, t.riskLevel, t.severity)) =
      [(some false, some "medium", "CRITICAL")] :=
  ⟨rfl, by decide⟩

/-- Claim C3, amended: for every CallExpression whose callee is the
identifier `eval`, the dynamism classification is a pure function of the
first argument's node type: an identifier, template literal, binary
expression or nested call argument yields isDynamic=true and
riskLevel="high"; any other argument type — including a literal string and
a member expression — yields isDynamic=false and riskLevel="medium";
severity is CRITICAL in both cases. -/
theorem C3_eval_dynamism (node : ASTNode) (file : RepositoryFile) (c : SubNode)
    (a : SubNode) (moreArgs : List SubNode)
    (htype : node.type = "CallExpression")
    (hcallee : node.callee = some c)
    (hname : c.name = some "eval")
    (hargs : node.arguments = some (a :: moreArgs)) :
    (detectEvalUsage [node] file).map
        (fun t => (t.subcategory, t.severity, t.isDynamic, t.riskLevel)) =
      [("eval_usage", "CRITICAL",
        some (a.type == "Identifier" || a.type == "TemplateLiteral" ||
              a.type == "BinaryExpression" || a.type == "CallExpression"),
        some (if (a.type == "Identifier" || a.type == "TemplateLiteral" ||
                  a.type == "BinaryExpression" || a.type == "CallExpression") then
                "high"
              else "medium"))] := by
  simp [detectEvalUsage, getNodesByType, htype, detectEvalUsageGo, evalHits,
    hcallee, hname, mkEvalThreat, isDynamicEvalCall, hargs]

/-- Witness for C3_eval_dynamism at `eval(x)` with identifier argument. -/
theorem C3_eval_dynamism_witness :
    (detectEvalUsage [evalNodeLine2] sampleFile).map
        (fun t => (t.subcategory, t.severity, t.isDynamic, t.riskLevel)) =
      [("eval_usage", "CRITICAL",
        some (("Identifier" : String) == "Identifier" || ("Identifier" : String) == "TemplateLiteral" ||
              ("Identifier" : String) == "BinaryExpression" || ("Identifier" : String) == "CallExpression"),
        some (if (("Identifier" : String) == "Identifier" || ("Identifier" : String) == "TemplateLiteral" ||
                  ("Identifier" : String) == "BinaryExpression" || ("Identifier" : String) == "CallExpression") then
                "high"
              else "medium"))] :=
  C3_eval_dynamism evalNodeLine2 sampleFile
    { type := "Identifier", name := some "eval" }
    { type := "Identifier", name := some "x" } [] rfl rfl rfl rfl

/-- Claim C4, counterexample: a file with a dynamic import on line 1 and an
eval call on line 2 yields the eval finding (line 2) before the import
finding (line 1): output order follows the rule grouping, not the
flattened pre-order node sequence. -/
theorem C4_counterexample :
    importNode.startLine = some 1 ∧
    evalNodeLine2.startLine = some 2 ∧
    (analyzeASTNodes [importNode, evalNodeLine2] sampleFile).map (fun t => t.line) =
      [some 2, some 1] :=
  ⟨rfl, rfl, by decide⟩

/-- Claim C4, amended: within a single file, findings are grouped by
pattern rule in a fixed order — eval usage, dynamic imports, Function
constructor, timers, shell execution — and within each rule they follow
the order the matching nodes appear in the flattened node sequence. -/
theorem C4_rule_grouped_order (nodes : List ASTNode) (file : RepositoryFile) :
    analyzeASTNodes nodes file =
      (nodes.filter (fun n => n.type == "CallExpression")).flatMap (evalHits file) ++
      (nodes.filter (fun n => n.type == "ImportExpression")).map (fun n => mkImportThreat n file) ++
      (nodes.filter (fun n => n.type == "NewExpression")).flatMap (functionConstructorHits file) ++
      (nodes.filter (fun n => n.type == "CallExpression")).flatMap (timerHits file) ++
      (nodes.filter (fun n => n.type == "CallExpression")).flatMap (shellHits file) := by
  simp [analyzeASTNodes, detectEvalUsage, detectDynamicImports, detectFunctionConstructor,
    detectTimerThreats, detectShellExecution, getNodesByType,
    detectEvalUsageGo_eq_flatMap, detectDynamicImportsGo_eq_map,
    detectFunctionConstructorGo_eq_flatMap, detectTimerThreatsGo_eq_flatMap,
    detectShellExecutionGo_eq_flatMap]

/-- Claim C5, counterexample: `.env`, a hidden file directly at the scan
root, has a path segment starting with '.' yet passes the include filter
under default options (include-hidden unset) — root-level hidden entries
are not excluded. -/
theorem C5_counterexample :
    ({} : TraversalOptions).includeHidden = false ∧
    (splitOnChar '/' hiddenRootFile.relativePath).any
      (fun part => strStartsWith part ".") = true ∧
    shouldIncludeFile hiddenRootFile {} = true :=
  ⟨rfl, by decide, by decide⟩

/-- Claim C5, amended: with include-hidden unset, an entry is excluded
when its relative path contains the substring "/." and some slash-separated
segment starts with '.'; hidden entries whose dot-segment is the first
segment (files or directories directly at the scan root, e.g. `.env`,
`.github/...`) do not match the "/." test and are not excluded. -/
theorem C5_hidden_exclusion (file : FileMetadata) (options : TraversalOptions)
    (hh : options.includeHidden = false)
    (hsub : strContains file.relativePath "/." = true)
    (hseg : (splitOnChar '/' file.relativePath).any
      (fun part => strStartsWith part ".") = true) :
    shouldIncludeFile file options = false := by
  simp [shouldIncludeFile, hh, hsub, hseg]

/-- Witness for C5_hidden_exclusion at a nested hidden file. -/
theorem C5_hidden_exclusion_witness :
    shouldIncludeFile hiddenNestedFile {} = false :=
  C5_hidden_exclusion hiddenNestedFile {} rfl (by decide) (by decide)

/-! ### Filter lemmas separating the detectors' subcategories -/

theorem filter_flatMap_list {α β : Type} (l : List α) (f : α → List β) (p : β → Bool) :
    (l.flatMap f).filter p = l.flatMap (fun a => (f a).filter p) := by
  induction l with
  | nil => rfl
  | cons a rest ih => simp [List.flatMap_cons, List.filter_append, ih]

theorem flatMap_const_nil {α β : Type} (l : List α) :
    (l.flatMap (fun _ => ([] : List β))) = [] := by
  induction l with
  | nil => rfl
  | cons a rest ih => simp [List.flatMap_cons, ih]

theorem evalHits_filter_shell (file : RepositoryFile) (n : ASTNode) :
    (evalHits file n).filter (fun t => t.subcategory == "shell_execution") = [] := by
  unfold evalHits
  repeat' split
  all_goals simp [mkEvalThreat]

theorem functionConstructorHits_filter_shell (file : RepositoryFile) (n : ASTNode) :
    (functionConstructorHits file n).filter
      (fun t => t.subcategory == "shell_execution") = [] := by
  unfold functionConstructorHits
  repeat' split
  all_goals simp [mkFunctionConstructorThreat]

theorem timerHits_filter_shell (file : RepositoryFile) (n : ASTNode) :
    (timerHits file n).filter (fun t => t.subcategory == "shell_execution") = [] := by
  unfold timerHits
  repeat' split
  all_goals simp [mkTimerThreat]

theorem shellHits_filter_shell (file : RepositoryFile) (n : ASTNode) :
    (shellHits file n).filter (fun t => t.subcategory == "shell_execution") = shellHits file n := by
  unfold shellHits
  repeat' split
  all_goals simp [mkShellThreat]

/-- Claim C6: every CallExpression whose callee is an identifier named
exec, spawn, execSync or spawnSync yields exactly one finding for that
call site, with subcategory shell_execution and severity CRITICAL; over
any node sequence the shell_execution findings are exactly one per
matching call site, in order. -/
theorem C6_shell_execution (node : ASTNode) (file : RepositoryFile) (c : SubNode) (nm : String)
    (htype : node.type = "CallExpression")
    (hcallee : node.callee = some c)
    (hname : c.name = some nm)
    (hmem : nm = "exec" ∨ nm = "spawn" ∨ nm = "execSync" ∨ nm = "spawnSync") :
    analyzeASTNodes [node] file = [mkShellThreat nm node file] ∧
    (mkShellThreat nm node file).subcategory = "shell_execution" ∧
    (mkShellThreat nm node file).severity = "CRITICAL" ∧
    ∀ ns : List ASTNode,
      (analyzeASTNodes ns file).filter (fun t => t.subcategory == "shell_execution") =
        (ns.filter (fun n => n.type == "CallExpression")).flatMap (shellHits file) := by
  refine ⟨?_, rfl, rfl, ?_⟩
  · rcases hmem with rfl | rfl | rfl | rfl <;>
      simp [analyzeASTNodes, detectEvalUsage, detectDynamicImports, detectFunctionConstructor,
        detectTimerThreats, detectShellExecution, getNodesByType, htype,
        detectEvalUsageGo, detectDynamicImportsGo, detectFunctionConstructorGo,
        detectTimerThreatsGo, detectShellExecutionGo, evalHits, timerHits, shellHits,
        hcallee, hname]
  · intro ns
    simp [analyzeASTNodes, List.filter_append, detectEvalUsage, detectDynamicImports,
      detectFunctionConstructor, detectTimerThreats, detectShellExecution, getNodesByType,
      detectEvalUsageGo_eq_flatMap, detectDynamicImportsGo_eq_map,
      detectFunctionConstructorGo_eq_flatMap, detectTimerThreatsGo_eq_flatMap,
      detectShellExecutionGo_eq_flatMap, filter_flatMap_list, List.filter_map,
      evalHits_filter_shell, functionConstructorHits_filter_shell, timerHits_filter_shell,
      shellHits_filter_shell, flatMap_const_nil, mkImportThreat, Function.comp]

/-- Witness for C6_shell_execution at the `exec(cmd)` fixture. -/
theorem C6_shell_execution_witness :
    analyzeASTNodes [execNode] sampleFile = [mkShellThreat "exec" execNode sampleFile] ∧
    (mkShellThreat "exec" execNode sampleFile).subcategory = "shell_execution" ∧
    (mkShellThreat "exec" execNode sampleFile).severity = "CRITICAL" ∧
    ∀ ns : List ASTNode,
      (analyzeASTNodes ns sampleFile).filter (fun t => t.subcategory == "shell_execution") =
        (ns.filter (fun n => n.type == "CallExpression")).flatMap (shellHits sampleFile) :=
  C6_shell_execution execNode sampleFile { type := "Identifier", name := some "exec" } "exec"
    rfl rfl rfl (Or.inl rfl)

/-- Claim C7: the syntax-tree builder fails fast with a typed
"unsupported file type" error on any non-.ts/.tsx/.js/.jsx path (without
invoking the parser), fails fast with a typed "invalid content" error on
empty content, and every failure is a typed result — success=false with a
descriptive error and no node sequence — never a thrown fault. -/
theorem C7_parseAST :
    (∀ (p₁ p₂ : ParserOracle) (content filePath : String),
      content ≠ "" →
      (strEndsWith filePath ".ts" || strEndsWith filePath ".tsx" ||
       strEndsWith filePath ".js" || strEndsWith filePath ".jsx") = false →
      parseAST p₁ content filePath =
        { success := false, nodes := none,
          error := some ("Unsupported file type: " ++ filePath), filePath := filePath } ∧
      parseAST p₁ content filePath = parseAST p₂ content filePath) ∧
    (∀ (p₁ p₂ : ParserOracle) (filePath : String),
      parseAST p₁ "" filePath =
        { success := false, nodes := none,
          error := some "Invalid content: must be a non-empty string",
          filePath := filePath } ∧
      parseAST p₁ "" filePath = parseAST p₂ "" filePath) ∧
    (∀ (p : ParserOracle) (content filePath : String),
      (parseAST p content filePath).success = false →
      (parseAST p content filePath).nodes = none ∧
      (parseAST p content filePath).error ≠ none) := by
  refine ⟨?_, ?_, ?_⟩
  · intro p₁ p₂ content filePath hne hext
    have h1 : strEndsWith filePath ".ts" = false := by
      rcases Bool.or_eq_false_iff.mp hext with ⟨h, _⟩
      rcases Bool.or_eq_false_iff.mp h with ⟨h2, _⟩
      rcases Bool.or_eq_false_iff.mp h2 with ⟨h3, _⟩
      exact h3
    have h2 : strEndsWith filePath ".tsx" = false := by
      rcases Bool.or_eq_false_iff.mp hext with ⟨h, _⟩
      rcases Bool.or_eq_false_iff.mp h with ⟨h2, _⟩
      rcases Bool.or_eq_false_iff.mp h2 with ⟨_, h4⟩
      exact h4
    have h3 : strEndsWith filePath ".js" = false := by
      rcases Bool.or_eq_false_iff.mp hext with ⟨h, _⟩
      rcases Bool.or_eq_false_iff.mp h with ⟨_, h4⟩
      exact h4
    have h4 : strEndsWith filePath ".jsx" = false := by
      rcases Bool.or_eq_false_iff.mp hext with ⟨_, h⟩
      exact h
    constructor <;> simp [parseAST, hne, h1, h2, h3, h4]
  · intro p₁ p₂ filePath
    constructor <;> simp [parseAST]
  · intro p content filePath
    unfold parseAST
    repeat' split
    all_goals intro h
    all_goals try simp only [] at h ⊢
    all_goals try split
    all_goals try split at h
    all_goals simp_all

/-- Witness for C7_parseAST: a .py path with nonempty content fails with
the unsupported-file-type error independently of the parser. -/
theorem C7_parseAST_witness :
    parseAST failParser "x" "a.py" =
      { success := false, nodes := none,
        error := some ("Unsupported file type: " ++ "a.py"), filePath := "a.py" } ∧
    parseAST failParser "x" "a.py" = parseAST importOnlyParser "x" "a.py" :=
  C7_parseAST.1 failParser importOnlyParser "x" "a.py" (by decide) (by decide)

/-- If any stream event samples memory above the ceiling, the streaming
loop rejects with the memory-limit error, whatever was accumulated. -/
theorem streamFileContentGo_error (maxMem : Nat) :
    ∀ (chunks : List (String × Nat)) (acc : String) (k : Nat),
      (∃ cm ∈ chunks, maxMem < cm.2) →
      ∃ m, maxMem < m ∧ streamFileContentGo maxMem chunks acc k =
        .error ("Memory usage limit exceeded: " ++ toString m ++ " bytes") := by
  intro chunks
  induction chunks with
  | nil =>
    intro acc k h
    simp at h
  | cons c rest ih =>
    intro acc k h
    obtain ⟨ch, m⟩ := c
    by_cases hc : m > maxMem
    · exact ⟨m, hc, by simp [streamFileContentGo, hc]⟩
    · obtain ⟨cm, hmem, hgt⟩ := h
      rcases List.mem_cons.mp hmem with h1 | h2
      · subst h1; exact absurd hgt hc
      · have step := ih (acc ++ ch) (k + 1) ⟨cm, h2, hgt⟩
        simpa [streamFileContentGo, hc] using step

/-- Claim C8: if the memory sampled before any read already exceeds the
ceiling the call fails with the initial-memory error and no content;
files of at most the 10MiB threshold are read in a single call; larger
files are streamed with memory re-sampled at each chunk, and crossing the
ceiling aborts with the memory-limit error, leaving zero content. -/
theorem C8_memory_monitoring :
    (∀ (maxMem fileSize initMem : Nat) (whole : String) (chunks : List (String × Nat)),
      maxMem < initMem →
      readFileWithMemoryMonitoring maxMem fileSize initMem whole chunks =
        .error ("Initial memory usage too high: " ++ toString initMem ++ " bytes")) ∧
    (∀ (maxMem fileSize initMem : Nat) (whole : String) (chunks : List (String × Nat)),
      initMem ≤ maxMem → fileSize ≤ 10 * 1024 * 1024 →
      readFileWithMemoryMonitoring maxMem fileSize initMem whole chunks = .ok (whole, 1)) ∧
    (∀ (maxMem fileSize initMem : Nat) (whole : String) (chunks : List (String × Nat)),
      initMem ≤ maxMem → 10 * 1024 * 1024 < fileSize →
      readFileWithMemoryMonitoring maxMem fileSize initMem whole chunks =
        streamFileContent maxMem chunks) ∧
    (∀ (maxMem : Nat) (chunks : List (String × Nat)),
      (∃ cm ∈ chunks, maxMem < cm.2) →
      ∃ m, maxMem < m ∧ streamFileContent maxMem chunks =
        .error ("Memory usage limit exceeded: " ++ toString m ++ " bytes")) := by
  refine ⟨?_, ?_, ?_, ?_⟩
  · intro maxMem fileSize initMem whole chunks hinit
    simp [readFileWithMemoryMonitoring, hinit]
  · intro maxMem fileSize initMem whole chunks hinit hsize
    simp [readFileWithMemoryMonitoring, Nat.not_lt.mpr hinit, Nat.not_lt.mpr hsize]
  · intro maxMem fileSize initMem whole chunks hinit hsize
    simp [readFileWithMemoryMonitoring, Nat.not_lt.mpr hinit, hsize]
  · intro maxMem chunks h
    exact streamFileContentGo_error maxMem chunks "" 0 h

/-- Witness for C8_memory_monitoring: a ceiling of 100 bytes with an
initial sample of 200 bytes rejects with the initial-memory error. -/
theorem C8_memory_monitoring_witness :
    readFileWithMemoryMonitoring 100 5 200 "code" [] =
      .error ("Initial memory usage too high: " ++ toString 200 ++ " bytes") :=
  C8_memory_monitoring.1 100 5 200 "code" [] (by decide)

/-- Claim C10: a CallExpression whose callee carries no `name` property
(e.g. a member-expression callee such as `child_process.exec(cmd)`)
produces no finding at all: removing such a node from the sequence leaves
the scanner output unchanged. -/
theorem C10_member_callee (l₁ l₂ : List ASTNode) (file : RepositoryFile)
    (node : ASTNode) (c : SubNode)
    (htype : node.type = "CallExpression")
    (hcallee : node.callee = some c)
    (hname : c.name = none) :
    analyzeASTNodes (l₁ ++ node :: l₂) file = analyzeASTNodes (l₁ ++ l₂) file := by
  have hev : evalHits file node = [] := by simp [evalHits, hcallee, hname]
  have hti : timerHits file node = [] := by simp [timerHits, hcallee, hname]
  have hsh : shellHits file node = [] := by simp [shellHits, hcallee, hname]
  simp [analyzeASTNodes, detectEvalUsage, detectDynamicImports, detectFunctionConstructor,
    detectTimerThreats, detectShellExecution, getNodesByType,
    detectEvalUsageGo_eq_flatMap, detectDynamicImportsGo_eq_map,
    detectFunctionConstructorGo_eq_flatMap, detectTimerThreatsGo_eq_flatMap,
    detectShellExecutionGo_eq_flatMap, List.filter_append, List.filter_cons,
    List.flatMap_append, htype, hev, hti, hsh]

/-- Witness for C10_member_callee at the `cp.exec(cmd)` fixture. -/
theorem C10_member_callee_witness :
    analyzeASTNodes ([] ++ memberCalleeNode :: []) sampleFile =
      analyzeASTNodes ([] ++ []) sampleFile :=
  C10_member_callee [] [] sampleFile memberCalleeNode { type := "MemberExpression" }
    rfl rfl rfl
